import Mathlib

/-!
Verification of the keto diet planner (src/app.py): a shallow embedding of the
health-marker data model, the threshold evaluator, the macronutrient planner,
the value extractor, and the randomized meal-plan generator, together with
theorems settling the specified properties.

Numeric marker values are modelled as rationals; every numeric literal in the
program (thresholds such as 5.7, 110, 130) is exactly representable, so the
comparisons agree with the floating-point comparisons of the source.
-/

namespace Appketo

/-- A reading of the health markers extracted from one report. Each marker is
optional: a failed extraction yields an absent value. Mirrors the dictionary
built by `extract_pdf_data` in src/app.py (lines 28-36). -/
structure MarkerReading where
  hba1c : Option ℚ
  fasting_glucose : Option ℚ
  vitamin_d : Option ℚ
  vitamin_b12 : Option ℚ
  hdl : Option ℚ
  ldl : Option ℚ
  triglycerides : Option ℚ
deriving DecidableEq

/-- Safe comparison helper of src/app.py line 14:
`value is not None and value > threshold`. -/
def is_higher (value : Option ℚ) (threshold : ℚ) : Bool :=
  match value with
  | none => false
  | some v => decide (v > threshold)

/-- The inline test pattern of src/app.py lines 54, 57 and 60:
`data.get(k) is not None and data[k] < bound`. -/
def present_and_below (value : Option ℚ) (threshold : ℚ) : Bool :=
  match value with
  | none => false
  | some v => decide (v < threshold)

/-- The summary list built by the sequence of conditional `append` calls of
`summarize_health_markers` (src/app.py lines 50-65), rendered as a
concatenation of conditional singleton lists, in the exact order of the
source. -/
def summary_items (data : MarkerReading) : List String :=
  (if is_higher data.fasting_glucose 110 then ["⚠️ High fasting glucose: pre-diabetes risk"] else []) ++
  (if is_higher data.hba1c (5.7 : ℚ) then ["⚠️ HbA1c indicates pre-diabetes or diabetes"] else []) ++
  (if present_and_below data.vitamin_d 30 then ["⚠️ Vitamin D deficiency"] else []) ++
  (if present_and_below data.vitamin_b12 300 then ["⚠️ Vitamin B12 borderline low"] else []) ++
  (if present_and_below data.hdl 40 then ["⚠️ Low HDL – increase omega-3 & exercise"] else []) ++
  (if is_higher data.ldl 130 then ["⚠️ High LDL cholesterol"] else []) ++
  (if is_higher data.triglycerides 150 then ["⚠️ High triglycerides"] else [])

/-- The supplement list built alongside the summary (src/app.py lines 56
and 59). -/
def supplement_items (data : MarkerReading) : List String :=
  (if present_and_below data.vitamin_d 30 then ["- Vitamin D3 (2000–5000 IU/day)"] else []) ++
  (if present_and_below data.vitamin_b12 300 then ["- Methylcobalamin (1500 mcg, 3x/week)"] else [])

/-- `summarize_health_markers` of src/app.py lines 46-69: the summary and
supplement lists, with an empty summary replaced by the all-normal message
(lines 67-68). -/
def summarize_health_markers (data : MarkerReading) : List String × List String :=
  (if (summary_items data).isEmpty then ["✅ All markers appear normal."]
   else summary_items data,
   supplement_items data)

/-- The macronutrient targets dictionary of src/app.py line 72, with its four
fixed keys Protein, Fat, Carbs, Fiber. -/
structure MacroTargets where
  protein : ℕ
  fat : ℕ
  carbs : ℕ
  fiber : ℕ
deriving DecidableEq

/-- `recommend_macros` of src/app.py lines 71-81: start from the defaults,
then apply the three `update` rules in order; each update overwrites exactly
the keys it mentions and leaves the others as they currently are. -/
def recommend_macros (data : MarkerReading) : MacroTargets :=
  let macros : MacroTargets := ⟨20, 70, 5, 5⟩
  let macros := if is_higher data.hba1c (5.7 : ℚ) || is_higher data.fasting_glucose 110 then
    ⟨20, 70, macros.carbs, macros.fiber⟩ else macros
  let macros := if is_higher data.triglycerides 150 then
    ⟨25, 65, macros.carbs, macros.fiber⟩ else macros
  let macros := if is_higher data.ldl 130 then
    ⟨25, 60, macros.carbs, 10⟩ else macros
  macros

/-- Every threshold condition of `summarize_health_markers` is untriggered for
the reading. -/
def no_marker_triggers (data : MarkerReading) : Bool :=
  !(is_higher data.fasting_glucose 110) && !(is_higher data.hba1c (5.7 : ℚ)) &&
  !(present_and_below data.vitamin_d 30) && !(present_and_below data.vitamin_b12 300) &&
  !(present_and_below data.hdl 40) && !(is_higher data.ldl 130) &&
  !(is_higher data.triglycerides 150)

/-- C2 counterexample: for the reading HbA1c 6.0, LDL 140, HDL 35, fasting
glucose 95, triglycerides 100, the warning list is NOT the claimed order
HbA1c, high LDL, low HDL: the source checks HDL (line 60) before LDL
(line 62), so low HDL precedes high LDL. -/
theorem c2_order_counterexample :
    (summarize_health_markers ⟨some 6, some 95, none, none, some 35, some 140, some 100⟩).1 ≠
      ["⚠️ HbA1c indicates pre-diabetes or diabetes", "⚠️ High LDL cholesterol",
       "⚠️ Low HDL – increase omega-3 & exercise"] := by
  norm_num [summarize_health_markers, summary_items, supplement_items, is_higher, present_and_below]
  decide

/-- C2 (amended): for the reading HbA1c 6.0, LDL 140, HDL 35, fasting glucose
95, triglycerides 100, the warning list is exactly the HbA1c indicator, the
low-HDL warning, and the high-LDL warning, in that order (the order of the
checks in the source), with no fasting-glucose or triglyceride warning and no
supplement suggestion. -/
theorem c2_exact_warnings :
    summarize_health_markers ⟨some 6, some 95, none, none, some 35, some 140, some 100⟩ =
      (["⚠️ HbA1c indicates pre-diabetes or diabetes",
        "⚠️ Low HDL – increase omega-3 & exercise",
        "⚠️ High LDL cholesterol"], []) := by
  norm_num [summarize_health_markers, summary_items, supplement_items, is_higher, present_and_below]

/-- C4: for a reading with fasting glucose 150, triglycerides 200 and LDL 200,
all three override rules trigger and the last rule wins: the result is exactly
Protein 25, Fat 60, Carbs 5, Fiber 10. -/
theorem c4_ldl_rule_wins :
    recommend_macros ⟨none, some 150, none, none, none, some 200, some 200⟩ =
      ⟨25, 60, 5, 10⟩ := by
  norm_num [recommend_macros, is_higher]

/-- C7: no override rule of `recommend_macros` assigns to Carbs, so the Carbs
entry of the result is always the default 5. -/
theorem c7_carbs_stays_default (data : MarkerReading) :
    (recommend_macros data).carbs = 5 := by
  cases h1 : is_higher data.hba1c (5.7 : ℚ) || is_higher data.fasting_glucose 110 <;>
  cases h2 : is_higher data.triglycerides 150 <;>
  cases h3 : is_higher data.ldl 130 <;>
  simp [recommend_macros, h1, h2, h3]

/-- C9: for every reading, the four percentages returned by
`recommend_macros` sum to exactly 100: the defaults and every reachable
combination of the override rules preserve the total, even though the code
never renormalizes. -/
theorem c9_macros_sum_100 (data : MarkerReading) :
    (recommend_macros data).protein + (recommend_macros data).fat +
      (recommend_macros data).carbs + (recommend_macros data).fiber = 100 := by
  cases h1 : is_higher data.hba1c (5.7 : ℚ) || is_higher data.fasting_glucose 110 <;>
  cases h2 : is_higher data.triglycerides 150 <;>
  cases h3 : is_higher data.ldl 130 <;>
  simp [recommend_macros, h1, h2, h3]

/-- C10: the output of `recommend_macros` does not depend on the HbA1c or
fasting glucose values: the only rule that reads them assigns Fat 70 and
Protein 20, which are exactly the untouched defaults, so the result equals
the result on the same reading with both markers removed. -/
theorem c10_glucose_markers_irrelevant (data : MarkerReading) :
    recommend_macros data =
      recommend_macros
        ⟨none, none, data.vitamin_d, data.vitamin_b12, data.hdl, data.ldl,
         data.triglycerides⟩ := by
  cases h1 : is_higher data.hba1c (5.7 : ℚ) || is_higher data.fasting_glucose 110 <;>
  cases h2 : is_higher data.triglycerides 150 <;>
  cases h3 : is_higher data.ldl 130 <;>
  simp [recommend_macros, is_higher, h1, h2, h3]

theorem mem_cond_singleton {x w : String} {c : Bool} :
    x ∈ (if c then [w] else ([] : List String)) ↔ c = true ∧ x = w := by
  cases c <;> simp

/-- Any member of the warning list is either the all-normal message or one of
the seven warnings together with its triggering condition. -/
theorem summary_mem_cases (data : MarkerReading) (x : String)
    (hx : x ∈ (summarize_health_markers data).1) :
    x = "✅ All markers appear normal." ∨
    (is_higher data.fasting_glucose 110 = true ∧ x = "⚠️ High fasting glucose: pre-diabetes risk") ∨
    (is_higher data.hba1c (5.7 : ℚ) = true ∧ x = "⚠️ HbA1c indicates pre-diabetes or diabetes") ∨
    (present_and_below data.vitamin_d 30 = true ∧ x = "⚠️ Vitamin D deficiency") ∨
    (present_and_below data.vitamin_b12 300 = true ∧ x = "⚠️ Vitamin B12 borderline low") ∨
    (present_and_below data.hdl 40 = true ∧ x = "⚠️ Low HDL – increase omega-3 & exercise") ∨
    (is_higher data.ldl 130 = true ∧ x = "⚠️ High LDL cholesterol") ∨
    (is_higher data.triglycerides 150 = true ∧ x = "⚠️ High triglycerides") := by
  simp only [summarize_health_markers] at hx
  split at hx
  · rw [List.mem_singleton] at hx
    exact Or.inl hx
  · simp only [summary_items, List.mem_append, mem_cond_singleton] at hx
    rcases hx with ((((((h | h) | h) | h) | h) | h) | h) <;>
      simp [h.1, h.2]

/-- Any member of the supplement list is one of the two supplements together
with its triggering condition. -/
theorem supplements_mem_cases (data : MarkerReading) (x : String)
    (hx : x ∈ (summarize_health_markers data).2) :
    (present_and_below data.vitamin_d 30 = true ∧ x = "- Vitamin D3 (2000–5000 IU/day)") ∨
    (present_and_below data.vitamin_b12 300 = true ∧ x = "- Methylcobalamin (1500 mcg, 3x/week)") := by
  simp only [summarize_health_markers, supplement_items] at hx
  simp only [List.mem_append, mem_cond_singleton] at hx
  rcases hx with h | h
  · exact Or.inl h
  · exact Or.inr h

theorem fg_warning_triggered {data : MarkerReading}
    (hx : "⚠️ High fasting glucose: pre-diabetes risk" ∈ (summarize_health_markers data).1) :
    is_higher data.fasting_glucose 110 = true := by
  rcases summary_mem_cases data _ hx with h | ⟨hc, _⟩ | ⟨_, he⟩ | ⟨_, he⟩ | ⟨_, he⟩ | ⟨_, he⟩ | ⟨_, he⟩ | ⟨_, he⟩
  · exact absurd h (by decide)
  · exact hc
  all_goals exact absurd he (by decide)

theorem hba1c_warning_triggered {data : MarkerReading}
    (hx : "⚠️ HbA1c indicates pre-diabetes or diabetes" ∈ (summarize_health_markers data).1) :
    is_higher data.hba1c (5.7 : ℚ) = true := by
  rcases summary_mem_cases data _ hx with h | ⟨_, he⟩ | ⟨hc, _⟩ | ⟨_, he⟩ | ⟨_, he⟩ | ⟨_, he⟩ | ⟨_, he⟩ | ⟨_, he⟩
  · exact absurd h (by decide)
  · exact absurd he (by decide)
  · exact hc
  all_goals exact absurd he (by decide)

theorem vitd_warning_triggered {data : MarkerReading}
    (hx : "⚠️ Vitamin D deficiency" ∈ (summarize_health_markers data).1) :
    present_and_below data.vitamin_d 30 = true := by
  rcases summary_mem_cases data _ hx with h | ⟨_, he⟩ | ⟨_, he⟩ | ⟨hc, _⟩ | ⟨_, he⟩ | ⟨_, he⟩ | ⟨_, he⟩ | ⟨_, he⟩
  · exact absurd h (by decide)
  · exact absurd he (by decide)
  · exact absurd he (by decide)
  · exact hc
  all_goals exact absurd he (by decide)

theorem b12_warning_triggered {data : MarkerReading}
    (hx : "⚠️ Vitamin B12 borderline low" ∈ (summarize_health_markers data).1) :
    present_and_below data.vitamin_b12 300 = true := by
  rcases summary_mem_cases data _ hx with h | ⟨_, he⟩ | ⟨_, he⟩ | ⟨_, he⟩ | ⟨hc, _⟩ | ⟨_, he⟩ | ⟨_, he⟩ | ⟨_, he⟩
  · exact absurd h (by decide)
  · exact absurd he (by decide)
  · exact absurd he (by decide)
  · exact absurd he (by decide)
  · exact hc
  all_goals exact absurd he (by decide)

theorem hdl_warning_triggered {data : MarkerReading}
    (hx : "⚠️ Low HDL – increase omega-3 & exercise" ∈ (summarize_health_markers data).1) :
    present_and_below data.hdl 40 = true := by
  rcases summary_mem_cases data _ hx with h | ⟨_, he⟩ | ⟨_, he⟩ | ⟨_, he⟩ | ⟨_, he⟩ | ⟨hc, _⟩ | ⟨_, he⟩ | ⟨_, he⟩
  · exact absurd h (by decide)
  · exact absurd he (by decide)
  · exact absurd he (by decide)
  · exact absurd he (by decide)
  · exact absurd he (by decide)
  · exact hc
  all_goals exact absurd he (by decide)

theorem ldl_warning_triggered {data : MarkerReading}
    (hx : "⚠️ High LDL cholesterol" ∈ (summarize_health_markers data).1) :
    is_higher data.ldl 130 = true := by
  rcases summary_mem_cases data _ hx with h | ⟨_, he⟩ | ⟨_, he⟩ | ⟨_, he⟩ | ⟨_, he⟩ | ⟨_, he⟩ | ⟨hc, _⟩ | ⟨_, he⟩
  · exact absurd h (by decide)
  · exact absurd he (by decide)
  · exact absurd he (by decide)
  · exact absurd he (by decide)
  · exact absurd he (by decide)
  · exact absurd he (by decide)
  · exact hc
  · exact absurd he (by decide)

theorem tg_warning_triggered {data : MarkerReading}
    (hx : "⚠️ High triglycerides" ∈ (summarize_health_markers data).1) :
    is_higher data.triglycerides 150 = true := by
  rcases summary_mem_cases data _ hx with h | ⟨_, he⟩ | ⟨_, he⟩ | ⟨_, he⟩ | ⟨_, he⟩ | ⟨_, he⟩ | ⟨_, he⟩ | ⟨hc, _⟩
  · exact absurd h (by decide)
  · exact absurd he (by decide)
  · exact absurd he (by decide)
  · exact absurd he (by decide)
  · exact absurd he (by decide)
  · exact absurd he (by decide)
  · exact absurd he (by decide)
  · exact hc

theorem vitd_supplement_triggered {data : MarkerReading}
    (hx : "- Vitamin D3 (2000–5000 IU/day)" ∈ (summarize_health_markers data).2) :
    present_and_below data.vitamin_d 30 = true := by
  rcases supplements_mem_cases data _ hx with ⟨hc, _⟩ | ⟨_, he⟩
  · exact hc
  · exact absurd he (by decide)

theorem b12_supplement_triggered {data : MarkerReading}
    (hx : "- Methylcobalamin (1500 mcg, 3x/week)" ∈ (summarize_health_markers data).2) :
    present_and_below data.vitamin_b12 300 = true := by
  rcases supplements_mem_cases data _ hx with ⟨_, he⟩ | ⟨hc, _⟩
  · exact absurd he (by decide)
  · exact hc

/-- C5: the evaluator skips absent markers: an absent value never triggers its
threshold, so the warning or supplement keyed to an absent marker never
appears; and when no threshold triggers, the whole result is exactly the
single all-normal message with no supplement. -/
theorem c5_absent_markers_skipped (data : MarkerReading) :
    (data.fasting_glucose = none →
      "⚠️ High fasting glucose: pre-diabetes risk" ∉ (summarize_health_markers data).1) ∧
    (data.hba1c = none →
      "⚠️ HbA1c indicates pre-diabetes or diabetes" ∉ (summarize_health_markers data).1) ∧
    (data.vitamin_d = none →
      "⚠️ Vitamin D deficiency" ∉ (summarize_health_markers data).1 ∧
      "- Vitamin D3 (2000–5000 IU/day)" ∉ (summarize_health_markers data).2) ∧
    (data.vitamin_b12 = none →
      "⚠️ Vitamin B12 borderline low" ∉ (summarize_health_markers data).1 ∧
      "- Methylcobalamin (1500 mcg, 3x/week)" ∉ (summarize_health_markers data).2) ∧
    (data.hdl = none →
      "⚠️ Low HDL – increase omega-3 & exercise" ∉ (summarize_health_markers data).1) ∧
    (data.ldl = none →
      "⚠️ High LDL cholesterol" ∉ (summarize_health_markers data).1) ∧
    (data.triglycerides = none →
      "⚠️ High triglycerides" ∉ (summarize_health_markers data).1) ∧
    (no_marker_triggers data = true →
      summarize_health_markers data = (["✅ All markers appear normal."], [])) := by
  refine ⟨fun h hmem => ?_, fun h hmem => ?_,
    fun h => ⟨fun hmem => ?_, fun hmem => ?_⟩,
    fun h => ⟨fun hmem => ?_, fun hmem => ?_⟩,
    fun h hmem => ?_, fun h hmem => ?_, fun h hmem => ?_, fun h => ?_⟩
  · have hc := fg_warning_triggered hmem
    rw [h] at hc
    exact absurd hc (by decide)
  · have hc := hba1c_warning_triggered hmem
    rw [h] at hc
    simp [is_higher] at hc
  · have hc := vitd_warning_triggered hmem
    rw [h] at hc
    exact absurd hc (by decide)
  · have hc := vitd_supplement_triggered hmem
    rw [h] at hc
    exact absurd hc (by decide)
  · have hc := b12_warning_triggered hmem
    rw [h] at hc
    exact absurd hc (by decide)
  · have hc := b12_supplement_triggered hmem
    rw [h] at hc
    exact absurd hc (by decide)
  · have hc := hdl_warning_triggered hmem
    rw [h] at hc
    exact absurd hc (by decide)
  · have hc := ldl_warning_triggered hmem
    rw [h] at hc
    exact absurd hc (by decide)
  · have hc := tg_warning_triggered hmem
    rw [h] at hc
    exact absurd hc (by decide)
  · simp only [no_marker_triggers, Bool.and_eq_true, Bool.not_eq_true'] at h
    obtain ⟨⟨⟨⟨⟨⟨h1, h2⟩, h3⟩, h4⟩, h5⟩, h6⟩, h7⟩ := h
    simp [summarize_health_markers, summary_items, supplement_items, h1, h2, h3, h4, h5, h6, h7]

/-- C5 witness: a reading with every marker absent yields exactly the
all-normal message, and a reading with an absent fasting glucose never shows
the fasting glucose warning. -/
theorem c5_witness :
    summarize_health_markers ⟨none, none, none, none, none, none, none⟩ =
      (["✅ All markers appear normal."], []) ∧
    "⚠️ High fasting glucose: pre-diabetes risk" ∉
      (summarize_health_markers ⟨some 6, none, none, none, none, some 140, none⟩).1 :=
  ⟨(c5_absent_markers_skipped ⟨none, none, none, none, none, none, none⟩).2.2.2.2.2.2.2
      (by decide),
   (c5_absent_markers_skipped ⟨some 6, none, none, none, none, some 140, none⟩).1 rfl⟩

/-- The fixed protein pool of `generate_custom_plan` (src/app.py line 89). -/
def protein_pool : List String := ["paneer", "tofu", "eggs", "chicken", "fish", "lentils"]

/-- The fixed vegetable pool (src/app.py line 90). -/
def veggies_pool : List String := ["spinach", "broccoli", "cauliflower", "zucchini", "mushroom"]

/-- The fixed fat pool (src/app.py line 91). -/
def fats_pool : List String := ["ghee", "olive oil", "butter", "coconut oil", "chia seeds", "avocado"]

/-- The fixed side pool (src/app.py line 92). -/
def others_pool : List String := ["flaxseed", "almond flour", "cucumber", "greek yogurt", "moong soup"]

/-- Python `str.capitalize`: first character uppercased, the rest lowercased. -/
def capitalize (s : String) : String :=
  match s.data with
  | [] => ""
  | c :: t => ⟨c.toUpper :: t.map Char.toLower⟩

/-- Python substring containment, the `l in i` test of src/app.py line 108. -/
def str_contains (hay needle : String) : Bool :=
  decide (needle.data <:+: hay.data)

/-- `filter_and_prioritize` of src/app.py lines 98-99: drop disliked items. -/
def filter_and_prioritize (dislikes : List String) (category : List String) : List String :=
  category.filter fun item => !(dislikes.contains item)

/-- Model of `random.choice`: the pseudo-random source supplies an arbitrary
natural number, reduced modulo the sequence length to an index. On an empty
sequence there is no valid index and the IndexError that `random.choice`
raises is modelled as `none`. -/
def random_choice (k : ℕ) (seq : List String) : Option String :=
  seq[k % seq.length]?

/-- One ingredient slot of `build_meal` (src/app.py lines 102-105):
`random.choice(filter_and_prioritize(pool)) if pool else fallback`. The guard
tests the UNFILTERED pool, so the fallback is only taken when the whole pool
is empty, while the choice is made from the dislike-filtered pool. -/
def choose_or_fallback (k : ℕ) (dislikes : List String) (pool : List String)
    (fallback : String) : Option String :=
  if pool.isEmpty then some fallback
  else random_choice k (filter_and_prioritize dislikes pool)

/-- Python `set(...)` on a list of strings, modelled as deduplication keeping
the first occurrence of each element. The iteration order of a Python set is
unspecified; the spec fixes it as insertion order of first occurrence, and no
property proved here depends on the order. -/
def py_set (l : List String) : List String :=
  l.foldl (fun acc x => if x ∈ acc then acc else acc ++ [x]) []

/-- Python `sep.join(l)`. -/
def join_sep (sep : String) : List String → String
  | [] => ""
  | [x] => x
  | x :: xs => x ++ sep ++ join_sep sep xs

/-- `build_meal` of src/app.py lines 101-111, over explicit pools and four
index choices from the random source. The meal sentence and the favorites
suffix are assembled exactly as in the f-strings of the source. -/
def build_meal (proteins veggies fats others likes dislikes : List String)
    (k1 k2 k3 k4 : ℕ) : Option String :=
  (choose_or_fallback k1 dislikes proteins "protein").bind fun protein =>
  (choose_or_fallback k2 dislikes veggies "veggies").bind fun veg =>
  (choose_or_fallback k3 dislikes fats "fat").bind fun fat =>
  (choose_or_fallback k4 dislikes others "side").bind fun extra =>
  let meal := capitalize protein ++ " cooked in " ++ fat ++ ", with sautéed " ++ veg ++
    " and a side of " ++ extra
  let favorites := [protein, veg, fat, extra].filter fun i => likes.any fun l => str_contains i l
  some (if favorites.isEmpty then meal
    else meal ++ " (contains your favorite: " ++ join_sep ", " (py_set favorites) ++ ")")

/-- One row of the generated plan (src/app.py lines 115-120). -/
structure DayPlan where
  day : String
  breakfast : String
  lunch : String
  dinner : String
deriving DecidableEq

/-- One iteration of the day loop of `generate_custom_plan` (src/app.py lines
114-120): three meals, consuming twelve values of the random source. -/
def build_day (proteins veggies fats others likes dislikes : List String)
    (ch : ℕ → ℕ) (i : ℕ) : Option DayPlan :=
  (build_meal proteins veggies fats others likes dislikes
      (ch (12*i)) (ch (12*i+1)) (ch (12*i+2)) (ch (12*i+3))).bind fun b =>
  (build_meal proteins veggies fats others likes dislikes
      (ch (12*i+4)) (ch (12*i+5)) (ch (12*i+6)) (ch (12*i+7))).bind fun l =>
  (build_meal proteins veggies fats others likes dislikes
      (ch (12*i+8)) (ch (12*i+9)) (ch (12*i+10)) (ch (12*i+11))).bind fun d =>
  some ⟨"Day " ++ toString (i+1), b, l, d⟩

/-- Sequencing of the day loop: the first failed day aborts the whole plan,
as an uncaught exception would. -/
def build_days (f : ℕ → Option DayPlan) : List ℕ → Option (List DayPlan)
  | [] => some []
  | i :: is => (f i).bind fun d => (build_days f is).bind fun rest => some (d :: rest)

/-- `generate_custom_plan` of src/app.py lines 87-121: vegetarian filtering of
the protein pool, then seven days of three meals each, over an explicit
stream `ch` of values of the pseudo-random source. -/
def generate_custom_plan (is_veg : Bool) (likes dislikes : List String)
    (ch : ℕ → ℕ) : Option (List DayPlan) :=
  let proteins := if is_veg then
    protein_pool.filter (fun i => !(["chicken", "fish", "eggs"].contains i))
  else protein_pool
  build_days (build_day proteins veggies_pool fats_pool others_pool likes dislikes ch)
    (List.range 7)

/-- C1: the claim says a dislike set covering a whole category pool makes the
generator fall back to the literal placeholder and never raise. The code
guards the fallback on the UNFILTERED pool (src/app.py line 102), which is a
non-empty constant, so the guard always takes the `random.choice` branch and
`random.choice([])` raises IndexError (modelled as `none`): with every
protein disliked the generator fails for every random stream instead of
producing placeholder meals. -/
theorem c1_covering_dislikes_raise (ch : ℕ → ℕ) :
    generate_custom_plan false [] ["paneer", "tofu", "eggs", "chicken", "fish", "lentils"] ch =
      none := by
  simp [generate_custom_plan, build_days, build_day, build_meal, choose_or_fallback,
    random_choice, filter_and_prioritize, protein_pool, List.range_succ]

/-- The two-character word `[a, b]` does not occur inside `l`. -/
def gram_free (a b : Char) (l : List Char) : Prop := ¬ [a, b] <:+: l

/-- A two-character infix of an append lies in the left part, in the right
part, or straddles the boundary. -/
theorem pair_infix_of_append {a b : Char} {x y : List Char} (h : [a, b] <:+: x ++ y) :
    [a, b] <:+: x ∨ [a, b] <:+: y ∨ (x.getLast? = some a ∧ y.head? = some b) := by
  induction x with
  | nil => exact Or.inr (Or.inl h)
  | cons c x ih =>
    rw [List.cons_append, List.infix_cons_iff] at h
    rcases h with hp | ht
    · rcases List.cons_prefix_cons.mp hp with ⟨hac, hb⟩
      cases x with
      | nil =>
        cases y with
        | nil => simp at hb
        | cons d y' =>
          rcases List.cons_prefix_cons.mp hb with ⟨hbd, _⟩
          exact Or.inr (Or.inr ⟨by simp [hac], by simp [hbd]⟩)
      | cons d x' =>
        rcases List.cons_prefix_cons.mp hb with ⟨hbd, _⟩
        refine Or.inl (List.IsPrefix.isInfix ?_)
        rw [hac, hbd]
        exact ⟨x', rfl⟩
    · rcases ih ht with h1 | h2 | ⟨hl, hh⟩
      · exact Or.inl ( List.infix_cons h1)
      · exact Or.inr (Or.inl h2)
      · refine Or.inr (Or.inr ⟨?_, hh⟩)
        cases x with
        | nil => simp at hl
        | cons d x' => rw [List.getLast?_cons_cons]; exact hl

theorem gram_free_append {a b : Char} {x y : List Char} (hx : gram_free a b x)
    (hy : gram_free a b y) (hb : x.getLast? ≠ some a ∨ y.head? ≠ some b) :
    gram_free a b (x ++ y) := by
  intro h
  rcases pair_infix_of_append h with h | h | ⟨h1, h2⟩
  · exact hx h
  · exact hy h
  · rcases hb with hb | hb
    · exact hb h1
    · exact hb h2

instance decidableGramFree (a b : Char) (l : List Char) : Decidable (gram_free a b l) := by
  unfold gram_free
  exact inferInstance

/-- None of the two-character cores of the forbidden ingredient names occurs
in the chunk: `ck` from chicken, `fi` from fish, `gg` from eggs. -/
def chunk_safe (l : List Char) : Prop :=
  gram_free 'c' 'k' l ∧ gram_free 'f' 'i' l ∧ gram_free 'g' 'g' l

instance decidableChunkSafe (l : List Char) : Decidable (chunk_safe l) := by
  unfold chunk_safe
  exact inferInstance

theorem head_ne_of_head_eq {y : List Char} {c b : Char} (h : y.head? = some c)
    (hne : c ≠ b) : y.head? ≠ some b := by
  rw [h]
  intro hc
  exact hne (Option.some.inj hc)

theorem last_ne_of_last_eq {x : List Char} {c a : Char} (h : x.getLast? = some c)
    (hne : c ≠ a) : x.getLast? ≠ some a := by
  rw [h]
  intro hc
  exact hne (Option.some.inj hc)

/-- Appending chunks preserves safety whenever the boundary cannot spell one
of the forbidden two-character cores: it suffices that the right chunk starts
with a space, a comma or a closing parenthesis, or that the left chunk ends
with a space. -/
theorem chunk_safe_append {x y : List Char} (hx : chunk_safe x) (hy : chunk_safe y)
    (hb : y.head? = some ' ' ∨ y.head? = some ',' ∨ y.head? = some ')' ∨
      x.getLast? = some ' ') :
    chunk_safe (x ++ y) := by
  obtain ⟨hx1, hx2, hx3⟩ := hx
  obtain ⟨hy1, hy2, hy3⟩ := hy
  refine ⟨gram_free_append hx1 hy1 ?_, gram_free_append hx2 hy2 ?_,
    gram_free_append hx3 hy3 ?_⟩ <;>
  · rcases hb with hb | hb | hb | hb
    · exact Or.inr (head_ne_of_head_eq hb (by decide))
    · exact Or.inr (head_ne_of_head_eq hb (by decide))
    · exact Or.inr (head_ne_of_head_eq hb (by decide))
    · exact Or.inl (last_ne_of_last_eq hb (by decide))

/-- Joining safe chunks with the separator of the favorites suffix stays
safe. -/
theorem chunk_safe_join {l : List String} (h : ∀ s ∈ l, chunk_safe s.data) :
    chunk_safe (join_sep ", " l).data := by
  induction l with
  | nil => exact (by decide)
  | cons x xs ih =>
    cases xs with
    | nil => simpa [join_sep] using h x (by simp)
    | cons y ys =>
      have hx := h x (by simp)
      have hrest := ih (fun s hs => h s (by simp [hs]))
      have hstep : join_sep ", " (x :: y :: ys) = x ++ ", " ++ join_sep ", " (y :: ys) := rfl
      rw [hstep, String.data_append, String.data_append]
      refine chunk_safe_append (chunk_safe_append hx (by decide) ?_) hrest ?_
      · exact Or.inr (Or.inl rfl)
      · right; right; right
        rw [List.getLast?_append]
        rfl

/-- The vegetarian filter of src/app.py line 96 removes exactly chicken, fish
and eggs, leaving paneer, tofu and lentils. -/
theorem veg_filter_eq :
    protein_pool.filter (fun i => !(["chicken", "fish", "eggs"].contains i)) =
      ["paneer", "tofu", "lentils"] := by decide

theorem choose_or_fallback_mem_pool {k : ℕ} {dislikes pool : List String} {fb x : String}
    (hne : pool.isEmpty = false)
    (h : choose_or_fallback k dislikes pool fb = some x) : x ∈ pool := by
  unfold choose_or_fallback at h
  split at h
  · rename_i hcond
    rw [hne] at hcond
    exact absurd hcond (by decide)
  · unfold random_choice filter_and_prioritize at h
    exact (List.mem_filter.mp (List.getElem?_mem h)).1

theorem py_set_aux {x : String} : ∀ (l acc : List String),
    x ∈ l.foldl (fun acc x => if x ∈ acc then acc else acc ++ [x]) acc →
      x ∈ acc ∨ x ∈ l
  | [], _, h => Or.inl h
  | y :: l, acc, h => by
    rcases py_set_aux l (if y ∈ acc then acc else acc ++ [y]) h with h1 | h1
    · split at h1
      · exact Or.inl h1
      · rcases List.mem_append.mp h1 with h2 | h2
        · exact Or.inl h2
        · rw [List.mem_singleton] at h2
          exact Or.inr (h2 ▸ List.mem_cons_self y l)
    · exact Or.inr (List.mem_cons_of_mem y h1)

theorem py_set_subset {l : List String} {x : String} (h : x ∈ py_set l) : x ∈ l := by
  unfold py_set at h
  rcases py_set_aux l [] h with h1 | h1
  · exact absurd h1 (List.not_mem_nil x)
  · exact h1

theorem protein_slot_safe {p : String}
    (hmem : p ∈ ["paneer", "tofu", "lentils"]) :
    chunk_safe p.data ∧ chunk_safe (capitalize p).data := by
  fin_cases hmem <;> exact (by decide)

theorem veggies_slot_safe {v : String} (hmem : v ∈ veggies_pool) :
    chunk_safe v.data := by
  fin_cases hmem <;> exact (by decide)

theorem fats_slot_safe {f : String} (hmem : f ∈ fats_pool) :
    chunk_safe f.data := by
  fin_cases hmem <;> exact (by decide)

theorem others_slot_safe {e : String} (hmem : e ∈ others_pool) :
    chunk_safe e.data := by
  fin_cases hmem <;> exact (by decide)

/-- Every meal built from the vegetarian protein pool is free of the
two-character cores of chicken, fish and eggs, whatever the likes, dislikes
and random choices. -/
theorem build_meal_safe {likes dislikes : List String} {k1 k2 k3 k4 : ℕ} {m : String}
    (h : build_meal ["paneer", "tofu", "lentils"] veggies_pool fats_pool others_pool
      likes dislikes k1 k2 k3 k4 = some m) : chunk_safe m.data := by
  unfold build_meal at h
  rcases Option.bind_eq_some.mp h with ⟨protein, hp, h⟩
  rcases Option.bind_eq_some.mp h with ⟨veg, hv, h⟩
  rcases Option.bind_eq_some.mp h with ⟨fat, hf, h⟩
  rcases Option.bind_eq_some.mp h with ⟨extra, he, h⟩
  simp only [Option.some.injEq] at h
  obtain ⟨hps, hpc⟩ := protein_slot_safe (choose_or_fallback_mem_pool (by decide) hp)
  have hvs := veggies_slot_safe (choose_or_fallback_mem_pool (by decide) hv)
  have hfs := fats_slot_safe (choose_or_fallback_mem_pool (by decide) hf)
  have hes := others_slot_safe (choose_or_fallback_mem_pool (by decide) he)
  have base : chunk_safe (capitalize protein ++ " cooked in " ++ fat ++ ", with sautéed " ++
      veg ++ " and a side of " ++ extra).data := by
    simp only [String.data_append]
    refine chunk_safe_append (chunk_safe_append (chunk_safe_append (chunk_safe_append
      (chunk_safe_append (chunk_safe_append hpc (by decide) ?_) hfs ?_) (by decide) ?_)
      hvs ?_) (by decide) ?_) hes ?_
    · exact Or.inl rfl
    · right; right; right
      rw [List.getLast?_append]
      rfl
    · exact Or.inr (Or.inl rfl)
    · right; right; right
      rw [List.getLast?_append]
      rfl
    · exact Or.inl rfl
    · right; right; right
      rw [List.getLast?_append]
      rfl
  split at h
  · rw [← h]
    exact base
  · rw [← h]
    have hjoin : chunk_safe (join_sep ", "
        (py_set ([protein, veg, fat, extra].filter fun i =>
          likes.any fun l => str_contains i l))).data := by
      refine chunk_safe_join ?_
      intro s hs
      have hsmem := (List.mem_filter.mp (py_set_subset hs)).1
      simp only [List.mem_cons, List.not_mem_nil, or_false] at hsmem
      rcases hsmem with rfl | rfl | rfl | rfl
      · exact hps
      · exact hvs
      · exact hfs
      · exact hes
    simp only [String.data_append]
    refine chunk_safe_append (chunk_safe_append (chunk_safe_append ?_ (by decide) ?_)
      hjoin ?_) (by decide) ?_
    · simpa only [String.data_append] using base
    · exact Or.inl rfl
    · right; right; right
      rw [List.getLast?_append]
      rfl
    · exact Or.inr (Or.inr (Or.inl rfl))

theorem str_contains_false_of_chunk_safe {s : String} (h : chunk_safe s.data) :
    str_contains s "chicken" = false ∧ str_contains s "fish" = false ∧
    str_contains s "eggs" = false := by
  obtain ⟨h1, h2, h3⟩ := h
  refine ⟨decide_eq_false ?_, decide_eq_false ?_, decide_eq_false ?_⟩
  · intro hi
    exact h1 ((by decide : ['c', 'k'] <:+: "chicken".data).trans hi)
  · intro hi
    exact h2 ((by decide : ['f', 'i'] <:+: "fish".data).trans hi)
  · intro hi
    exact h3 ((by decide : ['g', 'g'] <:+: "eggs".data).trans hi)

theorem build_day_safe {likes dislikes : List String} {ch : ℕ → ℕ} {i : ℕ} {d : DayPlan}
    (h : build_day ["paneer", "tofu", "lentils"] veggies_pool fats_pool others_pool
      likes dislikes ch i = some d) :
    chunk_safe d.breakfast.data ∧ chunk_safe d.lunch.data ∧ chunk_safe d.dinner.data := by
  unfold build_day at h
  rcases Option.bind_eq_some.mp h with ⟨b, hb, h⟩
  rcases Option.bind_eq_some.mp h with ⟨l, hl, h⟩
  rcases Option.bind_eq_some.mp h with ⟨dn, hdn, h⟩
  rw [← Option.some.inj h]
  exact ⟨build_meal_safe hb, build_meal_safe hl, build_meal_safe hdn⟩

theorem build_days_mem {f : ℕ → Option DayPlan} {idx : List ℕ} {plan : List DayPlan}
    (h : build_days f idx = some plan) {d : DayPlan} (hd : d ∈ plan) :
    ∃ i ∈ idx, f i = some d := by
  induction idx generalizing plan with
  | nil =>
    unfold build_days at h
    rw [← Option.some.inj h] at hd
    exact absurd hd (List.not_mem_nil d)
  | cons i is ih =>
    unfold build_days at h
    rcases Option.bind_eq_some.mp h with ⟨d0, hd0, h⟩
    rcases Option.bind_eq_some.mp h with ⟨rest, hrest, h⟩
    rw [← Option.some.inj h] at hd
    rcases List.mem_cons.mp hd with rfl | hmem
    · exact ⟨i, List.mem_cons_self i is, hd0⟩
    · rcases ih hrest hmem with ⟨j, hj, hfj⟩
      exact ⟨j, List.mem_cons_of_mem i hj, hfj⟩

/-- C6: in vegetarian mode, chicken, fish and eggs are removed from the
protein pool before any selection (src/app.py line 96), and no other pool or
template text can spell them, so whatever the likes, the dislikes and the
random choices, no breakfast, lunch or dinner string of a generated plan
contains the substring chicken, fish or eggs. -/
theorem c6_vegetarian_no_meat {likes dislikes : List String} {ch : ℕ → ℕ}
    {plan : List DayPlan}
    (h : generate_custom_plan true likes dislikes ch = some plan) :
    ∀ d ∈ plan,
      str_contains d.breakfast "chicken" = false ∧
      str_contains d.lunch "chicken" = false ∧
      str_contains d.dinner "chicken" = false ∧
      str_contains d.breakfast "fish" = false ∧
      str_contains d.lunch "fish" = false ∧
      str_contains d.dinner "fish" = false ∧
      str_contains d.breakfast "eggs" = false ∧
      str_contains d.lunch "eggs" = false ∧
      str_contains d.dinner "eggs" = false := by
  intro d hd
  unfold generate_custom_plan at h
  rw [if_pos rfl, veg_filter_eq] at h
  rcases build_days_mem h hd with ⟨i, _, hf⟩
  obtain ⟨hb, hl, hdn⟩ := build_day_safe hf
  obtain ⟨hb1, hb2, hb3⟩ := str_contains_false_of_chunk_safe hb
  obtain ⟨hl1, hl2, hl3⟩ := str_contains_false_of_chunk_safe hl
  obtain ⟨hd1, hd2, hd3⟩ := str_contains_false_of_chunk_safe hdn
  exact ⟨hb1, hl1, hd1, hb2, hl2, hd2, hb3, hl3, hd3⟩

/-- A concrete all-zero stream of the pseudo-random source. -/
def zero_stream : ℕ → ℕ := fun _ => 0

/-- C6 witness: with the all-zero random stream and no likes or dislikes, the
vegetarian generator produces a plan whose first breakfast does not contain
the substring chicken. -/
theorem c6_witness :
    str_contains
      (((generate_custom_plan true [] [] zero_stream).getD []).headD
        ⟨"", "", "", ""⟩).breakfast "chicken" = false := by
  have h : generate_custom_plan true [] [] zero_stream =
      some ((generate_custom_plan true [] [] zero_stream).getD []) := rfl
  exact (c6_vegetarian_no_meat h _ (by decide)).1

/-- A calendar date, as carried by a dated report. -/
structure SimpleDate where
  year : ℕ
  month : ℕ
  day : ℕ
deriving DecidableEq

/-- Decimal digits to a natural number. -/
def digits_to_nat (l : List Char) : ℕ :=
  l.foldl (fun acc c => 10 * acc + (c.toNat - 48)) 0

/-- Modelled from the spec: recognition of a `YYYY-MM-DD` token starting at
the current position of the filename. The Report Loader date derivation is
described in the spec (section 4.2) but has no implementation in
src/app.py. -/
def date_token_here (l : List Char) : Option (ℕ × ℕ × ℕ) :=
  match l with
  | y1 :: y2 :: y3 :: y4 :: '-' :: m1 :: m2 :: '-' :: d1 :: d2 :: _ =>
    if y1.isDigit && y2.isDigit && y3.isDigit && y4.isDigit &&
        m1.isDigit && m2.isDigit && d1.isDigit && d2.isDigit then
      some (digits_to_nat [y1, y2, y3, y4], digits_to_nat [m1, m2],
        digits_to_nat [d1, d2])
    else none
  | _ => none

/-- Modelled from the spec: left-to-right search for the first `YYYY-MM-DD`
token of the filename. -/
def find_date_token : List Char → Option (ℕ × ℕ × ℕ)
  | [] => none
  | c :: t =>
    match date_token_here (c :: t) with
    | some r => some r
    | none => find_date_token t

/-- Modelled from the spec: the Report Loader derives the report date by
searching the filename for a `YYYY-MM-DD` token, parsing it as a date when
present and defaulting to the current processing time otherwise. -/
def derive_date (filename : String) (now : SimpleDate) : SimpleDate :=
  match find_date_token filename.data with
  | some (y, m, d) => ⟨y, m, d⟩
  | none => now

/-- C3: the derived date of a report comes from the first `YYYY-MM-DD` token
of the filename when one is present and is the current processing time
otherwise; in particular the filename report_2024-03-15_labs.pdf yields
exactly the date 2024-03-15, whatever the current time. -/
theorem c3_filename_date (filename : String) (now : SimpleDate) :
    (find_date_token filename.data = none → derive_date filename now = now) ∧
    (∀ y m d : ℕ, find_date_token filename.data = some (y, m, d) →
      derive_date filename now = ⟨y, m, d⟩) ∧
    derive_date "report_2024-03-15_labs.pdf" now = ⟨2024, 3, 15⟩ := by
  refine ⟨fun h => ?_, fun y m d h => ?_, ?_⟩
  · unfold derive_date
    rw [h]
  · unfold derive_date
    rw [h]
  · rfl

/-- C3 witness: a filename without a date token keeps the processing time, and
filenames with a token yield exactly the token. -/
theorem c3_witness :
    derive_date "labs_final.pdf" ⟨2026, 10, 12⟩ = ⟨2026, 10, 12⟩ ∧
    derive_date "report_2024-03-15_labs.pdf" ⟨2026, 10, 12⟩ = ⟨2024, 3, 15⟩ ∧
    derive_date "x2019-12-31" ⟨2026, 10, 12⟩ = ⟨2019, 12, 31⟩ :=
  ⟨(c3_filename_date "labs_final.pdf" ⟨2026, 10, 12⟩).1 (by decide),
   (c3_filename_date "report_2024-03-15_labs.pdf" ⟨2026, 10, 12⟩).2.2,
   (c3_filename_date "x2019-12-31" ⟨2026, 10, 12⟩).2.1 2019 12 31 (by decide)⟩

/-- Modelled from the spec: the regular-expression sublanguage used by the
extraction patterns of src/app.py (literal characters, character classes such
as digits, bounded repetition unfolded into alternation, and the lazy
any-character star written `.*?`). The engine applying it, the Python `re`
standard library, is external to the repository; alternation is ordered, and
a character test receives the lowercased text character, which renders the
IGNORECASE flag of the `re.search` call of src/app.py line 39. -/
inductive RE where
  | eps : RE
  | pred : (Char → Bool) → RE
  | cat : RE → RE → RE
  | alt : RE → RE → RE
  | lazyAny : RE

/-- All suffixes of the text in order of increasing consumption: the
preference order of a lazy star. -/
def lazy_any_results : List Char → List (List Char)
  | [] => [[]]
  | c :: t => (c :: t) :: lazy_any_results t

/-- The matcher: the list of text suffixes remaining after each possible
parse of the expression at the head of the text, in preference order. -/
def re_match : RE → List Char → List (List Char)
  | .eps, s => [s]
  | .pred _, [] => []
  | .pred p, c :: t => if p c.toLower then [t] else []
  | .cat a b, s => (re_match a s).flatMap (re_match b)
  | .alt a b, s => re_match a s ++ re_match b s
  | .lazyAny, s => lazy_any_results s

/-- Modelled from the spec: a pattern with exactly one capturing group, as in
every extraction pattern of src/app.py: a part before the group, the group,
and a part after the group. -/
structure REPattern where
  pre : RE
  grp : RE
  post : RE

/-- Attempt the pattern at one position of the text (the position is the
start of the suffix `s`): the captured group of the first successful parse in
preference order, or `none`. -/
def pat_match_at (pt : REPattern) (s : List Char) : Option (List Char) :=
  (re_match pt.pre s).findSome? fun s1 =>
    (re_match pt.grp s1).findSome? fun s2 =>
      if (re_match pt.post s2).isEmpty then none
      else some (s1.take (s1.length - s2.length))

/-- `re.search`: scan the positions of the text left to right and return the
captured group of the first position where the pattern matches. -/
def re_search (pt : REPattern) : List Char → Option (List Char)
  | [] => pat_match_at pt []
  | c :: t =>
    match pat_match_at pt (c :: t) with
    | some g => some g
    | none => re_search pt t

/-- Modelled from the spec: Python `float` on a captured group, which for the
extraction patterns is always digits with an optional decimal point. -/
def parse_float (l : List Char) : ℚ :=
  let intPart := l.takeWhile (· ≠ '.')
  let fracPart := (l.dropWhile (· ≠ '.')).drop 1
  if fracPart.isEmpty then (digits_to_nat intPart : ℚ)
  else (digits_to_nat intPart : ℚ) + (digits_to_nat fracPart : ℚ) / (10 : ℚ) ^ fracPart.length

/-- `extract_value` of src/app.py lines 38-40: search the full text with the
case-insensitive pattern and parse the captured group of the first match as a
floating-point number; no match yields absent, never an error. -/
def extract_value (text : String) (pt : REPattern) : Option ℚ :=
  (re_search pt text.data).map parse_float

theorem re_search_eq_none_iff (pt : REPattern) :
    ∀ l : List Char, (re_search pt l = none ↔ ∀ s, s <:+ l → pat_match_at pt s = none)
  | [] => by
    unfold re_search
    constructor
    · intro h s hs
      rw [List.suffix_nil.mp hs]
      exact h
    · intro h
      exact h [] List.suffix_rfl
  | c :: t => by
    unfold re_search
    cases hm : pat_match_at pt (c :: t) with
    | some g =>
      simp only []
      constructor
      · intro h
        exact absurd h (by simp)
      · intro h
        rw [h (c :: t) List.suffix_rfl] at hm
        exact absurd hm (by simp)
    | none =>
      simp only []
      rw [re_search_eq_none_iff pt t]
      constructor
      · intro h s hs
        rcases List.suffix_cons_iff.mp hs with rfl | hs'
        · exact hm
        · exact h s hs'
      · intro h s hs
        exact h s (hs.trans (List.suffix_cons c t))

theorem re_search_some_leftmost (pt : REPattern) :
    ∀ (l : List Char) (g : List Char), re_search pt l = some g →
      ∃ s, s <:+ l ∧ pat_match_at pt s = some g ∧
        ∀ s', s' <:+ l → s.length < s'.length → pat_match_at pt s' = none
  | [], g => by
    unfold re_search
    intro h
    refine ⟨[], List.suffix_rfl, h, ?_⟩
    intro s' hs' hlen
    rw [List.suffix_nil.mp hs'] at hlen
    exact absurd hlen (by simp)
  | c :: t, g => by
    unfold re_search
    cases hm : pat_match_at pt (c :: t) with
    | some g' =>
      intro h
      refine ⟨c :: t, List.suffix_rfl, ?_, ?_⟩
      · rw [hm]
        exact h
      · intro s' hs' hlen
        exact absurd hlen (Nat.not_lt.mpr hs'.length_le)
    | none =>
      intro h
      rcases re_search_some_leftmost pt t g h with ⟨s, hs, hmat, hmax⟩
      refine ⟨s, hs.trans (List.suffix_cons c t), hmat, ?_⟩
      intro s' hs' hlen
      rcases List.suffix_cons_iff.mp hs' with rfl | hs''
      · exact hm
      · exact hmax s' hs'' hlen

/-- C8: the value extractor applies the pattern as a single case-insensitive
search over the full text: it returns absent exactly when no position of the
text matches (so non-matching text never raises), and when the search finds a
match it returns the captured group of the leftmost matching position parsed
as a floating-point number. -/
theorem c8_extract_value_spec (pt : REPattern) (text : String) :
    (extract_value text pt = none ↔ ∀ s, s <:+ text.data → pat_match_at pt s = none) ∧
    (∀ g, re_search pt text.data = some g →
      extract_value text pt = some (parse_float g)) ∧
    (∀ g, re_search pt text.data = some g →
      ∃ s, s <:+ text.data ∧ pat_match_at pt s = some g ∧
        ∀ s', s' <:+ text.data → s.length < s'.length → pat_match_at pt s' = none) := by
  refine ⟨?_, ?_, ?_⟩
  · rw [extract_value, Option.map_eq_none']
    exact re_search_eq_none_iff pt text.data
  · intro g h
    rw [extract_value, h]
    rfl
  · intro g h
    exact re_search_some_leftmost pt text.data g h

/-- The pattern `HbA1c.*?(\d+\.?\d*)`, restricted to one mandatory digit,
written in the modelled sublanguage: label characters, lazy gap, then a group
of one digit, an optional dot and an optional digit. -/
def hba1c_pattern : REPattern :=
  ⟨(("hba1c".data.map fun c => RE.pred fun x => x == c).foldr RE.cat RE.eps).cat RE.lazyAny,
   (RE.pred Char.isDigit).cat ((RE.alt (RE.pred fun c => c == '.') RE.eps).cat
     (RE.alt (RE.pred Char.isDigit) RE.eps)),
   RE.eps⟩

/-- C8 witness: on the text `HbA1c 6.2 %` the modelled extractor finds the
leftmost match and parses its group; on a non-matching text it yields
absent. -/
theorem c8_witness :
    extract_value "HbA1c 6.2 %" hba1c_pattern = some (parse_float "6.2".data) ∧
    pat_match_at hba1c_pattern "no markers here".data = none :=
  ⟨(c8_extract_value_spec hba1c_pattern "HbA1c 6.2 %").2.1 "6.2".data (by decide),
   ((c8_extract_value_spec hba1c_pattern "no markers here").1).mp (by decide)
     "no markers here".data List.suffix_rfl⟩

end Appketo
